import Mathlib

/-!
# Verification of the owned-buffer export tracker
  (`Modules/_testcapi/ownedbuffer.c`)

Shallow embedding of the buffer export-ownership state machine:
`testOwnedBufObject` becomes an explicit state record, and the buffer-protocol
entry points `testownedbuf_getbuffer`, `testownedbuf_releasebufffer` (sic) and
`testownedbuf_dealloc` become pure functions threading that state.

Modelling conventions:
* `PyBUF_EXCLUSIVE` and `PyBUF_IMMUTABLE` are two distinct bits of the `flags`
  word; the C code only ever inspects those two bits
  (`flags & PyBUF_EXCLUSIVE`, `flags & PyBUF_IMMUTABLE`), so `flags` is
  modelled as the pair of the two tested bits.
* `immutable_references` is a `Py_ssize_t`; it is modelled as `Int` so that
  non-negativity is a real statement, not a typing artifact.
* The 1000-byte `calloc`ed storage becomes a `List Nat` of 1000 zeros; a
  `Py_buffer` view filled by `PyBuffer_FillInfo(view, obj, buf, 1000,
  readonly, flags)` becomes a record of its `len` and `readonly` fields, with
  the aliasing of the owner's storage made explicit by threading the storage
  list through the view operations.
* `assert(...)` in `testownedbuf_releasebufffer` is modelled by returning the
  asserted condition alongside the updated state; the two error paths of
  `getbuffer` return `Except` errors naming the three `PyErr_SetString`
  messages; `dealloc`'s `PyErr_Print` diagnostic becomes a boolean field of
  its result, next to the unconditional `PyMem_Free`/`tp_free` calls.
-/

/-- The two buffer-request bits the code inspects:
`exclusive = (flags & PyBUF_EXCLUSIVE) != 0`,
`immutable = (flags & PyBUF_IMMUTABLE) != 0`. -/
structure BufFlags where
  exclusive : Bool
  immutable : Bool
deriving DecidableEq

/-- The three `BufferError` messages raised by `testownedbuf_getbuffer`. -/
inductive AcquireError where
  /-- "Buffer is already exclusively exported." -/
  | alreadyExclusive
  /-- "Buffer has immutable exports and cannot be exclusively exported." -/
  | conflictingExclusive
  /-- "exactly one of PyBUF_EXCLUSIVE or PyBUF_IMMUTABLE must be specified." -/
  | invalidMode
deriving DecidableEq

/-- The fields of the `Py_buffer` filled by `PyBuffer_FillInfo` that the view
objects use (`view.len`, `view.readonly`); `view.buf` aliases the owner's
storage, which is threaded explicitly. -/
structure BufferView where
  len : Int
  readonly : Bool
deriving DecidableEq

/-- State of a `testOwnedBufObject`: the owned byte buffer, the count of
immutable exports, and the exclusive-export flag. -/
structure OwnerState where
  storage : List Nat
  immutable_references : Int
  exclusively_exported : Bool
deriving DecidableEq

/-- `testownedbuf_new`: a fresh owner with 1000 `calloc`-zeroed bytes,
`immutable_references = 0`, `exclusively_exported = 0`. -/
def testownedbuf_new : OwnerState :=
  { storage := List.replicate 1000 0
    immutable_references := 0
    exclusively_exported := false }

/-- `testownedbuf_getbuffer`: validates the request against the current
export state and either fails (leaving the state as the early `return -1`
paths do) or updates the counters and fills a view.  The three checks occur
in source order: already-exclusive, conflicting-exclusive, invalid-mode. -/
def testownedbuf_getbuffer (self : OwnerState) (flags : BufFlags) :
    Except AcquireError BufferView × OwnerState :=
  let exclusive_requested : Bool := flags.exclusive
  let immutable_requested : Bool := flags.immutable
  if self.exclusively_exported then
    (Except.error AcquireError.alreadyExclusive, self)
  else if flags.exclusive && decide (0 < self.immutable_references) then
    (Except.error AcquireError.conflictingExclusive, self)
  else if (exclusive_requested.xor immutable_requested) = false then
    (Except.error AcquireError.invalidMode, self)
  else
    let readonly : Bool := !exclusive_requested
    let self :=
      if exclusive_requested then { self with exclusively_exported := true }
      else self
    let self :=
      if immutable_requested then
        { self with immutable_references := self.immutable_references + 1 }
      else self
    (Except.ok { len := 1000, readonly := readonly }, self)

/-- `testownedbuf_releasebufffer` (spelled as in the source): the returned
boolean is the source's `assert(self->exclusively_exported ^
(self->immutable_references > 0))`; the state update mirrors the two guarded
clears/decrements that follow it. -/
def testownedbuf_releasebufffer (self : OwnerState) : Bool × OwnerState :=
  let assertOk : Bool :=
    self.exclusively_exported.xor (decide (0 < self.immutable_references))
  let self :=
    if self.exclusively_exported then { self with exclusively_exported := false }
    else self
  let self :=
    if 0 < self.immutable_references then
      { self with immutable_references := self.immutable_references - 1 }
    else self
  (assertOk, self)

/-- Result of `testownedbuf_dealloc`: whether the "deallocated buffer object
has exported buffers." `SystemError` diagnostic was printed, and whether the
buffer and the object were freed (both frees are unconditional in the code,
after the diagnostic branch). -/
structure DeallocResult where
  diagnostic : Bool
  buf_freed : Bool
  obj_freed : Bool
deriving DecidableEq

/-- `testownedbuf_dealloc`: prints the diagnostic iff an export is live, then
unconditionally runs `PyMem_Free(self->buf)` and `tp_free(self)`. -/
def testownedbuf_dealloc (self : OwnerState) : DeallocResult :=
  { diagnostic :=
      self.exclusively_exported || decide (0 < self.immutable_references)
    buf_freed := true
    obj_freed := true }

/-- The `IndexError` of the mutable view's `__setitem__`. -/
inductive ViewError where
  /-- "index out of range" -/
  | outOfRange
deriving DecidableEq

/-- `testSimpleMutableViewObject___setitem__`: bounds-checks `index` against
`view.len`, then writes the parsed byte through `view.buf` into the owner's
storage (the aliasing is made explicit by passing and returning the storage
list).  `value` is the result of parsing with format `B`, an unsigned char. -/
def testSimpleMutableViewObject___setitem__ (self : BufferView)
    (storage : List Nat) (index : Int) (value : Nat) :
    Except ViewError (List Nat) :=
  if index < 0 ∨ self.len ≤ index then
    Except.error ViewError.outOfRange
  else
    Except.ok (storage.set index.toNat value)

/-- `testSimpleMutableViewObject___bytes__`:
`PyBytes_FromStringAndSize(self->view.buf, self->view.len)` — a copy of the
first `view.len` bytes of the storage the view aliases. -/
def testSimpleMutableViewObject___bytes__ (self : BufferView)
    (storage : List Nat) : List Nat :=
  storage.take self.len.toNat

/-- One call against the owner: a buffer request with some flags word, or a
buffer release. -/
inductive Op where
  | acquireOp (flags : BufFlags)
  | releaseOp
deriving DecidableEq

/-- The state reached after one call (failed acquires leave the state as the
early-return paths do). -/
def step (s : OwnerState) : Op → OwnerState
  | Op.acquireOp flags => (testownedbuf_getbuffer s flags).2
  | Op.releaseOp => (testownedbuf_releasebufffer s).2

/-- The owner state after a sequence of calls starting from a fresh owner. -/
def run (ops : List Op) : OwnerState :=
  ops.foldl step testownedbuf_new

/-- The inductive invariant of the owner: the reference count is non-negative
and an exclusive export implies no immutable references. -/
def OwnerInv (s : OwnerState) : Prop :=
  0 ≤ s.immutable_references ∧
    (s.exclusively_exported = true → s.immutable_references = 0)

lemma ownerInv_new : OwnerInv testownedbuf_new :=
  ⟨Int.le_refl 0, fun _ => rfl⟩

lemma ownerInv_step (s : OwnerState) (op : Op) (h : OwnerInv s) :
    OwnerInv (step s op) := by
  obtain ⟨h0, hx⟩ := h
  cases op with
  | acquireOp flags =>
    obtain ⟨fe, fi⟩ := flags
    cases hE : s.exclusively_exported <;>
    cases fe <;>
    cases fi <;>
    simp_all [step, testownedbuf_getbuffer, OwnerInv] <;>
    (try split_ifs) <;>
    (try simp_all) <;>
    omega
  | releaseOp =>
    cases hE : s.exclusively_exported <;>
    simp_all [step, testownedbuf_releasebufffer, OwnerInv] <;>
    (try split_ifs) <;>
    (try simp_all) <;>
    omega

lemma ownerInv_foldl (s : OwnerState) (ops : List Op) (h : OwnerInv s) :
    OwnerInv (ops.foldl step s) := by
  induction ops generalizing s with
  | nil => exact h
  | cons op rest ih => exact ih _ (ownerInv_step s op h)

lemma ownerInv_run (ops : List Op) : OwnerInv (run ops) :=
  ownerInv_foldl _ _ ownerInv_new

/-- **C1** (mutual exclusion): for every sequence of acquire and release
calls starting from the initial Idle state, at no reachable point are
`immutable_references > 0` and `exclusively_exported = true` simultaneously:
whenever the count is positive, the exclusive flag is clear. -/
theorem acquire_release_mutual_exclusion (ops : List Op)
    (h : 0 < (run ops).immutable_references) :
    (run ops).exclusively_exported = false := by
  obtain ⟨h0, hx⟩ := ownerInv_run ops
  cases hE : (run ops).exclusively_exported with
  | false => rfl
  | true => exact absurd (hx hE) (by omega)

/-- Witness for **C1**: after one immutable acquire the count is positive and
the exclusive flag is clear. -/
theorem acquire_release_mutual_exclusion_witness :
    (run [Op.acquireOp { exclusive := false, immutable := true }]).exclusively_exported
      = false :=
  acquire_release_mutual_exclusion
    [Op.acquireOp { exclusive := false, immutable := true }] (by decide)

/-- **C2**: whenever `exclusively_exported` is true, `testownedbuf_getbuffer`
fails with the already-exclusive `BufferError` for every requested flags word,
leaving the state unchanged. -/
theorem acquire_fails_when_exclusively_exported (s : OwnerState)
    (flags : BufFlags) (h : s.exclusively_exported = true) :
    testownedbuf_getbuffer s flags =
      (Except.error AcquireError.alreadyExclusive, s) := by
  simp [testownedbuf_getbuffer, h]

/-- Witness for **C2** at a concrete exclusive state and a concrete (even
invalid, both-bits) flags word. -/
theorem acquire_fails_when_exclusively_exported_witness :
    testownedbuf_getbuffer ⟨[], 0, true⟩ { exclusive := true, immutable := true }
      = (Except.error AcquireError.alreadyExclusive, ⟨[], 0, true⟩) :=
  acquire_fails_when_exclusively_exported ⟨[], 0, true⟩
    { exclusive := true, immutable := true } rfl

/-- **C3**: with no exclusive export and a positive immutable count, an
exclusive-mode request fails with the conflicting-exclusive `BufferError`,
leaving the state unchanged. -/
theorem exclusive_acquire_fails_with_immutable_refs (s : OwnerState)
    (hE : s.exclusively_exported = false) (hpos : 0 < s.immutable_references) :
    testownedbuf_getbuffer s { exclusive := true, immutable := false } =
      (Except.error AcquireError.conflictingExclusive, s) := by
  simp [testownedbuf_getbuffer, hE, hpos]

/-- Witness for **C3** at the concrete state Shared(1). -/
theorem exclusive_acquire_fails_with_immutable_refs_witness :
    testownedbuf_getbuffer ⟨[], 1, false⟩ { exclusive := true, immutable := false }
      = (Except.error AcquireError.conflictingExclusive, ⟨[], 1, false⟩) :=
  exclusive_acquire_fails_with_immutable_refs ⟨[], 1, false⟩ rfl (by decide)

/-- **C4** counterexample: in the Shared(1) state (no exclusive export, one
immutable reference) a request with *both* mode bits set fails with the
conflicting-exclusive error, not the invalid-mode error, because the
conflicting-exclusive check precedes the exactly-one-bit check in
`testownedbuf_getbuffer`. -/
theorem invalid_mode_shared_counterexample :
    testownedbuf_getbuffer ⟨[], 1, false⟩ { exclusive := true, immutable := true }
      = (Except.error AcquireError.conflictingExclusive, ⟨[], 1, false⟩) ∧
    AcquireError.conflictingExclusive ≠ AcquireError.invalidMode := by
  exact ⟨rfl, by decide⟩

/-- **C4** amended: with no exclusive export, a request whose two mode bits
are equal (neither or both set) fails with the invalid-mode error provided
that, when both bits are set, the immutable count is not positive (otherwise
the earlier conflicting-exclusive check fires first).  In particular this
covers neither-bit requests in Idle and every Shared(n), and both-bit
requests in Idle. -/
theorem invalid_mode_amended (s : OwnerState) (flags : BufFlags)
    (hE : s.exclusively_exported = false)
    (hmode : flags.exclusive = flags.immutable)
    (hguard : flags.exclusive = true → s.immutable_references ≤ 0) :
    testownedbuf_getbuffer s flags =
      (Except.error AcquireError.invalidMode, s) := by
  obtain ⟨fe, fi⟩ := flags
  cases fe with
  | false =>
    cases fi with
    | false => simp [testownedbuf_getbuffer, hE]
    | true => exact absurd hmode (by decide)
  | true =>
    cases fi with
    | false => exact absurd hmode (by decide)
    | true =>
      have hle := hguard rfl
      have hnpos : ¬(0 < s.immutable_references) := by omega
      simp [testownedbuf_getbuffer, hE, hnpos]

/-- Witness for the amended **C4**: a both-bits request in the Idle state. -/
theorem invalid_mode_amended_witness :
    testownedbuf_getbuffer ⟨[], 0, false⟩ { exclusive := true, immutable := true }
      = (Except.error AcquireError.invalidMode, ⟨[], 0, false⟩) :=
  invalid_mode_amended ⟨[], 0, false⟩ { exclusive := true, immutable := true }
    rfl rfl (by decide)

/-- **C5** (atomicity on failure): whenever `testownedbuf_getbuffer` returns
an error — any of the three — the owner state is returned unchanged (each
failing path is an early return before any counter mutation), and no view is
produced. -/
theorem acquire_atomic_on_failure (s : OwnerState) (flags : BufFlags)
    (e : AcquireError)
    (h : (testownedbuf_getbuffer s flags).1 = Except.error e) :
    (testownedbuf_getbuffer s flags).2 = s := by
  obtain ⟨fe, fi⟩ := flags
  cases hE : s.exclusively_exported <;>
  cases fe <;>
  cases fi <;>
  simp_all [testownedbuf_getbuffer] <;>
  (try split_ifs) <;>
  (try split_ifs at h) <;>
  simp_all

/-- Witness for **C5**: a failing exclusive request against Shared(1). -/
theorem acquire_atomic_on_failure_witness :
    (testownedbuf_getbuffer ⟨[], 1, false⟩
        { exclusive := true, immutable := false }).2 = ⟨[], 1, false⟩ :=
  acquire_atomic_on_failure ⟨[], 1, false⟩
    { exclusive := true, immutable := false }
    AcquireError.conflictingExclusive rfl

/-- **C6** (success effects): when `testownedbuf_getbuffer` succeeds, an
exclusive-bit request sets `exclusively_exported` and leaves the count
unchanged, an immutable-bit request increments the count by one and leaves
the exclusive flag unchanged, and the filled view is writable (readonly
clear) exactly when the exclusive bit was requested. -/
theorem acquire_success_effects (s : OwnerState) (flags : BufFlags)
    (view : BufferView) (s2 : OwnerState)
    (h : testownedbuf_getbuffer s flags = (Except.ok view, s2)) :
    (flags.exclusive = true →
      s2.exclusively_exported = true ∧
      s2.immutable_references = s.immutable_references) ∧
    (flags.immutable = true →
      s2.immutable_references = s.immutable_references + 1 ∧
      s2.exclusively_exported = s.exclusively_exported) ∧
    (view.readonly = false ↔ flags.exclusive = true) := by
  obtain ⟨fe, fi⟩ := flags
  cases hE : s.exclusively_exported <;>
  cases fe <;>
  cases fi <;>
  simp_all [testownedbuf_getbuffer] <;>
  (try split_ifs at h) <;>
  (try simp_all) <;>
  (try (obtain ⟨hv, hs⟩ := h
        subst hv
        subst hs
        simp_all))

/-- Witness for **C6**: a successful exclusive request in the Idle state. -/
theorem acquire_success_effects_witness :
    ((BufFlags.mk true false).exclusive = true →
      (OwnerState.mk [] 0 true).exclusively_exported = true ∧
      (OwnerState.mk [] 0 true).immutable_references =
        (OwnerState.mk [] 0 false).immutable_references) ∧
    ((BufFlags.mk true false).immutable = true →
      (OwnerState.mk [] 0 true).immutable_references =
        (OwnerState.mk [] 0 false).immutable_references + 1 ∧
      (OwnerState.mk [] 0 true).exclusively_exported =
        (OwnerState.mk [] 0 false).exclusively_exported) ∧
    ((BufferView.mk 1000 false).readonly = false ↔
      (BufFlags.mk true false).exclusive = true) :=
  acquire_success_effects (OwnerState.mk [] 0 false) (BufFlags.mk true false)
    (BufferView.mk 1000 false) (OwnerState.mk [] 0 true) rfl

/-- **C7** (release effects and non-negativity): releasing with a live
exclusive export clears the flag (assertion holds); releasing with live
immutable references decrements the count by one (assertion holds);
releasing when neither kind of export is live fails the source's
`assert(exclusively_exported ^ (immutable_references > 0))`; and over every
sequence of operations from a fresh owner the count never goes negative —
the guarded decrement never wraps below zero. -/
theorem release_effects_and_nonneg (s : OwnerState) (ops : List Op) :
    (s.exclusively_exported = true → s.immutable_references ≤ 0 →
      testownedbuf_releasebufffer s =
        (true, { s with exclusively_exported := false })) ∧
    (s.exclusively_exported = false → 0 < s.immutable_references →
      testownedbuf_releasebufffer s =
        (true, { s with immutable_references := s.immutable_references - 1 })) ∧
    (s.exclusively_exported = false → s.immutable_references ≤ 0 →
      (testownedbuf_releasebufffer s).1 = false) ∧
    0 ≤ (run ops).immutable_references := by
  refine ⟨?_, ?_, ?_, (ownerInv_run ops).1⟩
  · intro hE hle
    have hnpos : ¬(0 < s.immutable_references) := by omega
    simp [testownedbuf_releasebufffer, hE, hnpos]
  · intro hE hpos
    simp [testownedbuf_releasebufffer, hE, hpos]
  · intro hE hle
    have hnpos : ¬(0 < s.immutable_references) := by omega
    simp [testownedbuf_releasebufffer, hE, hnpos]

/-- Witness for **C7**: the three release cases at concrete states
(Exclusive, Shared(2), Idle) plus non-negativity after a spurious release. -/
theorem release_effects_and_nonneg_witness :
    testownedbuf_releasebufffer ⟨[], 0, true⟩ = (true, ⟨[], 0, false⟩) ∧
    testownedbuf_releasebufffer ⟨[], 2, false⟩ = (true, ⟨[], 1, false⟩) ∧
    (testownedbuf_releasebufffer ⟨[], 0, false⟩).1 = false ∧
    0 ≤ (run [Op.releaseOp]).immutable_references :=
  ⟨(release_effects_and_nonneg ⟨[], 0, true⟩ []).1 rfl (by decide),
   (release_effects_and_nonneg ⟨[], 2, false⟩ []).2.1 rfl (by decide),
   (release_effects_and_nonneg ⟨[], 0, false⟩ []).2.2.1 rfl (by decide),
   (release_effects_and_nonneg ⟨[], 0, false⟩ [Op.releaseOp]).2.2.2⟩

/-- **C8** (destroy-when-idle): after any sequence of operations on a fresh
owner, `testownedbuf_dealloc` emits no "exported buffers" diagnostic exactly
when the owner is Idle (`immutable_references = 0` and
`exclusively_exported = false`); in every other reachable state the
diagnostic fires unconditionally — `dealloc` has no recoverable-error return
at all (its result is the diagnostic plus the unconditional frees). -/
theorem dealloc_clean_iff_idle (ops : List Op) :
    (testownedbuf_dealloc (run ops)).diagnostic = false ↔
      ((run ops).immutable_references = 0 ∧
        (run ops).exclusively_exported = false) := by
  obtain ⟨h0, hx⟩ := ownerInv_run ops
  constructor
  · intro h
    have hE : (run ops).exclusively_exported = false := by
      cases hEx : (run ops).exclusively_exported with
      | false => rfl
      | true => simp [testownedbuf_dealloc, hEx] at h
    have hnpos : ¬(0 < (run ops).immutable_references) := by
      intro hpos
      simp [testownedbuf_dealloc, hE, hpos] at h
    exact ⟨by omega, hE⟩
  · rintro ⟨hz, hE⟩
    simp [testownedbuf_dealloc, hE, hz]

/-- **C10**: deallocation is never prevented by live exports — in every
state, `testownedbuf_dealloc` frees the owned storage and the object itself;
the live-export check only controls the diagnostic.  In particular both
frees happen even when the diagnostic fires. -/
theorem dealloc_always_frees (s : OwnerState) :
    (testownedbuf_dealloc s).buf_freed = true ∧
    (testownedbuf_dealloc s).obj_freed = true :=
  ⟨rfl, rfl⟩

/-- Scenario C of the spec composed from the embedded operations: on a fresh
owner, request an exclusive view, write `value` at `index` through the
mutable view's `__setitem__`, release the view — checking the owner is back
to Idle — then request an immutable view and materialise its bytes via
`__bytes__`.  Returns `none` if any step fails. -/
def writeReadScenario (index : Int) (value : Nat) : Option (List Nat) :=
  match testownedbuf_getbuffer testownedbuf_new
      { exclusive := true, immutable := false } with
  | (Except.ok h1, s1) =>
    match testSimpleMutableViewObject___setitem__ h1 s1.storage index value with
    | Except.ok storage2 =>
      match testownedbuf_releasebufffer { s1 with storage := storage2 } with
      | (assertOk, s3) =>
        if assertOk && decide (s3.immutable_references = 0)
            && !s3.exclusively_exported then
          match testownedbuf_getbuffer s3
              { exclusive := false, immutable := true } with
          | (Except.ok h2, s4) =>
            some (testSimpleMutableViewObject___bytes__ h2 s4.storage)
          | (Except.error _, _) => none
        else none
    | Except.error _ => none
  | (Except.error _, _) => none

/-- **C9** (write/read round trip): for every index below 1000 and every byte
value, the exclusive-write / release / immutable-read scenario succeeds and
the bytes read back hold the written value at that index. -/
theorem write_read_round_trip (i v : Nat) (hi : i < 1000) (hv : v < 256) :
    ∃ bs : List Nat, writeReadScenario i v = some bs ∧ bs.get? i = some v := by
  have hlen : testownedbuf_new.storage.length = 1000 :=
    List.length_replicate 1000 0
  have hbound : ¬((i : Int) < 0 ∨ (1000 : Int) ≤ (i : Int)) := by omega
  have hnewE : testownedbuf_new.exclusively_exported = false := rfl
  have hnewR : testownedbuf_new.immutable_references = 0 := rfl
  have hlen2 : (testownedbuf_new.storage.set i v).length = 1000 := by
    simp [hlen]
  refine ⟨testownedbuf_new.storage.set i v, ?_, ?_⟩
  · simp [writeReadScenario, testownedbuf_getbuffer, testownedbuf_releasebufffer,
      testSimpleMutableViewObject___setitem__, testSimpleMutableViewObject___bytes__,
      hnewE, hnewR, hbound]
    have hcond : ¬((i : Int) < 0 ∨ (1000 : Nat) ≤ i) := by omega
    simp [hcond]
    exact le_of_eq hlen
  · rw [List.get?_eq_getElem?, List.getElem?_set_eq_of_lt]
    rw [hlen]
    exact hi

/-- Witness for **C9**: writing `0x42` at index 5 and reading it back. -/
theorem write_read_round_trip_witness :
    ∃ bs : List Nat, writeReadScenario 5 66 = some bs ∧ bs.get? 5 = some 66 :=
  write_read_round_trip 5 66 (by decide) (by decide)
